import Mathlib

/-!
Shallow embedding of `src/index.ts` (react-promise-hook): three asynchronous
operation state trackers built on a four-stage lifecycle enum.

Each React hook is modelled as a state record together with the state
transformers corresponding to the synchronous body of `run()` (or the
adoption effect) and to the `.then` / `.catch` continuation handlers.
The `setX` calls of React become field updates applied in source order;
the event loop is modelled by traces: lists of events (run starts and
settlements) folded over the state, reflecting that continuations may fire
in any order relative to run starts.
-/

namespace ReactPromiseHook

/-- The `PromiseStage` enum from `src/index.ts` lines 3-8. -/
inductive PromiseStage
  | notRun
  | running
  | error
  | success
deriving DecidableEq, Repr

/-! Immediate policy: `useImmediatePromiseState` (src/index.ts lines 27-60)

Hook state: the three `useState` cells `value`, `error`, `stage`.
There is no generation token in this hook. -/

structure ImmediateState (T E : Type) where
  value : Option T
  error : Option E
  stage : PromiseStage
deriving DecidableEq, Repr

namespace ImmediateState

variable {T E : Type}

/-- Initial hook state: `useState<T|undefined>()`, `useState<any>()`,
`useState(PromiseStage.notRun)` (lines 28-30). -/
def init : ImmediateState T E :=
  { value := none, error := none, stage := .notRun }

/-- Synchronous body of `run` (lines 32-36): `setValue(undefined)`,
`setError(undefined)`, `setStage(running)`. The promise handlers are
attached afterwards; their firing is a separate event. -/
def run (_s : ImmediateState T E) : ImmediateState T E :=
  { value := none, error := none, stage := .running }

/-- The `.then` handler (lines 38-42): `setStage(success)`, `setValue(result)`.
No token guard: it always commits. -/
def fulfill (result : T) (s : ImmediateState T E) : ImmediateState T E :=
  { s with stage := .success, value := some result }

/-- The `.catch` handler (lines 43-47): `setStage(error)`, `setError(err)`.
No token guard: it always commits; the rejection is captured, not rethrown. -/
def reject (err : E) (s : ImmediateState T E) : ImmediateState T E :=
  { s with stage := .error, error := some err }

/-- Events observable on the immediate hook: a `run()` call (triggered by the
effect on mount / callback change), or the settlement handlers of some
in-flight invocation firing. Handlers carry no invocation
identity because the source attaches them unguarded. -/
inductive Event (T E : Type)
  | run
  | fulfill (result : T)
  | reject (err : E)

def step (s : ImmediateState T E) : Event T E → ImmediateState T E
  | .run => run s
  | .fulfill result => fulfill result s
  | .reject err => reject err s

/-- State after processing a sequence of events from the initial state. -/
def trace (events : List (Event T E)) : ImmediateState T E :=
  events.foldl step init

end ImmediateState

/-! External-promise policy: `useExistingPromiseState` (src/index.ts lines 66-92) -/

structure ExistingState (T E : Type) where
  value : Option T
  error : Option E
  stage : PromiseStage
deriving DecidableEq, Repr

namespace ExistingState

variable {T E : Type}

/-- Initial hook state: `useState<T|undefined>()`, `useState<any>()`,
`useState(PromiseStage.running)` (lines 67-69): stage starts at `running`. -/
def init : ExistingState T E :=
  { value := none, error := none, stage := .running }

/-- The `useEffect` body run on each change of the `promise` reference
(lines 71-74): only `setStage(running)`; `value` and `error` are not
touched. The handlers attached to the adopted promise fire later. -/
def adopt (s : ExistingState T E) : ExistingState T E :=
  { s with stage := .running }

/-- The `.then` handler (lines 75-79): `setValue(value)`, `setStage(success)`. -/
def fulfill (v : T) (s : ExistingState T E) : ExistingState T E :=
  { s with value := some v, stage := .success }

/-- The `.catch` handler (lines 80-84): `setError(error)`, `setStage(error)`. -/
def reject (e : E) (s : ExistingState T E) : ExistingState T E :=
  { s with error := some e, stage := .error }

/-- Events on the external-promise hook: adopting a (new) promise reference,
or the settlement handlers of an adopted promise firing (unguarded). -/
inductive Event (T E : Type)
  | adopt
  | fulfill (v : T)
  | reject (e : E)

def step (s : ExistingState T E) : Event T E → ExistingState T E
  | .adopt => adopt s
  | .fulfill v => fulfill v s
  | .reject e => reject e s

def trace (events : List (Event T E)) : ExistingState T E :=
  events.foldl step init

end ExistingState

/-! Deferred policy with suppression: `useDelayedPromiseState`
(src/index.ts lines 101-146)

Hook state: the three `useState` cells plus the `useRef<symbol | null>`
generation-token slot. JavaScript `Symbol()` values are modelled by a
counter `nextSym`: each minted token is the current counter value, which is
then incremented, so distinct mints are never equal — exactly the equality
guarantee `Symbol()` provides. -/

structure DelayedState (T E : Type) where
  value : Option T
  error : Option E
  stage : PromiseStage
  currentSymbol : Option Nat
  nextSym : Nat
deriving DecidableEq, Repr

namespace DelayedState

variable {T E : Type}

/-- Initial hook state (lines 102-105): empty value/error, stage `notRun`,
token slot `null`. -/
def init : DelayedState T E :=
  { value := none, error := none, stage := .notRun, currentSymbol := none, nextSym := 0 }

/-- Lines 108-110 of `run`: `if (!keepLastValue) setValue(undefined)`. -/
def clearValueUnlessKept (keepLastValue : Bool) (s : DelayedState T E) : DelayedState T E :=
  if keepLastValue then s else { s with value := none }

/-- Line 111 of `run`: `setError(undefined)`. -/
def clearError (s : DelayedState T E) : DelayedState T E :=
  { s with error := none }

/-- Lines 115-117 of `run`:
`if (!keepLastValue || currentSymbol.current == null) setStage(running)`. -/
def maybeSetRunning (keepLastValue : Bool) (s : DelayedState T E) : DelayedState T E :=
  if !keepLastValue || s.currentSymbol.isNone then { s with stage := .running } else s

/-- Lines 119-120 of `run`: `thisRunSymbol = Symbol(); currentSymbol.current
= thisRunSymbol`. The minted token is the `nextSym` of the pre-state. -/
def mintSymbol (s : DelayedState T E) : DelayedState T E :=
  { s with currentSymbol := some s.nextSym, nextSym := s.nextSym + 1 }

/-- The full synchronous body of `run` (lines 107-121), in source order;
`returnsPromise()` is invoked right after, on the resulting state. The
token that the handlers of this run close over is `s.nextSym`. -/
def run (keepLastValue : Bool) (s : DelayedState T E) : DelayedState T E :=
  mintSymbol (maybeSetRunning keepLastValue (clearError (clearValueUnlessKept keepLastValue s)))

/-- The `.then` handler of the run that minted `tok` (lines 123-129): commits
`setStage(success); setValue(result)` only if `currentSymbol.current ===
thisRunSymbol`. -/
def fulfill (tok : Nat) (result : T) (s : DelayedState T E) : DelayedState T E :=
  if s.currentSymbol = some tok then { s with stage := .success, value := some result } else s

/-- The `.catch` handler of the run that minted `tok` (lines 130-137): commits
`setStage(error); setValue(undefined); setError(err)` only if the token is
still current. -/
def reject (tok : Nat) (err : E) (s : DelayedState T E) : DelayedState T E :=
  if s.currentSymbol = some tok then
    { s with stage := .error, value := none, error := some err }
  else s

/-- A settlement outcome of the promise of one invocation. -/
inductive Settlement (T E : Type)
  | fulfilled (result : T)
  | rejected (err : E)

/-- Apply the settlement handlers of the run that minted `tok`. -/
def settle (tok : Nat) : Settlement T E → DelayedState T E → DelayedState T E
  | .fulfilled result, s => fulfill tok result s
  | .rejected err, s => reject tok err s

/-- Events on the deferred hook: a `run()` call (its token is minted from the
counter of the state), or the settlement handlers of the run that minted `tok`. -/
inductive Event (T E : Type)
  | run
  | fulfill (tok : Nat) (result : T)
  | reject (tok : Nat) (err : E)

def step (keepLastValue : Bool) (s : DelayedState T E) : Event T E → DelayedState T E
  | .run => run keepLastValue s
  | .fulfill tok result => fulfill tok result s
  | .reject tok err => reject tok err s

def trace (keepLastValue : Bool) (events : List (Event T E)) : DelayedState T E :=
  events.foldl (step keepLastValue) init

end DelayedState

end ReactPromiseHook

/-! Helper lemmas about the deferred policy. -/

namespace ReactPromiseHook

variable {T E : Type}

theorem DelayedState.run_currentSymbol (keep : Bool) (s : DelayedState T E) :
    (DelayedState.run keep s).currentSymbol = some s.nextSym := by
  cases keep <;>
    simp [DelayedState.run, DelayedState.mintSymbol, DelayedState.maybeSetRunning,
      DelayedState.clearError, DelayedState.clearValueUnlessKept, apply_ite]

theorem DelayedState.run_nextSym (keep : Bool) (s : DelayedState T E) :
    (DelayedState.run keep s).nextSym = s.nextSym + 1 := by
  cases keep <;>
    simp [DelayedState.run, DelayedState.mintSymbol, DelayedState.maybeSetRunning,
      DelayedState.clearError, DelayedState.clearValueUnlessKept, apply_ite]

theorem DelayedState.settle_currentSymbol (tok : Nat) (k : DelayedState.Settlement T E)
    (s : DelayedState T E) :
    (DelayedState.settle tok k s).currentSymbol = s.currentSymbol := by
  cases k <;>
    simp only [DelayedState.settle, DelayedState.fulfill, DelayedState.reject] <;>
    split <;> rfl

theorem DelayedState.settle_stale (tok : Nat) (k : DelayedState.Settlement T E)
    (s : DelayedState T E) (h : s.currentSymbol ≠ some tok) :
    DelayedState.settle tok k s = s := by
  cases k <;>
    simp only [DelayedState.settle, DelayedState.fulfill, DelayedState.reject, if_neg h]

end ReactPromiseHook

/-! Claim theorems. -/

namespace ReactPromiseHook

variable {T E : Type}

/-- C1: on the deferred policy with suppression (`useDelayedPromiseState`),
if run A starts, then run B starts, then the promise of B settles (its
handlers commit, since its token is current), then the promise of A settles
(fulfilling or rejecting), the settlement handlers of A leave the state
entirely unchanged: the stale completion is dropped silently and the final
observable state reflects B. -/
theorem claim_C1 (keep : Bool) (s0 : DelayedState T E)
    (kA kB : DelayedState.Settlement T E) :
    DelayedState.settle s0.nextSym kA
        (DelayedState.settle (DelayedState.run keep s0).nextSym kB
          (DelayedState.run keep (DelayedState.run keep s0))) =
      DelayedState.settle (DelayedState.run keep s0).nextSym kB
        (DelayedState.run keep (DelayedState.run keep s0)) := by
  apply DelayedState.settle_stale
  rw [DelayedState.settle_currentSymbol, DelayedState.run_currentSymbol,
    DelayedState.run_nextSym]
  simp

/-- C3 counterexample: on the deferred policy with `keepLastValue = true`,
after a run whose promise rejects, no value is present, yet a subsequent
`run()` still suppresses setting the `running` stage (the stage stays
`error`): suppression is keyed on a prior run having happened, not on a
value being present, contradicting the claim that a `run()` with no prior
value must set stage to Running. -/
theorem claim_C3_counterexample :
    (DelayedState.trace true
        [DelayedState.Event.run, DelayedState.Event.reject 0 "boom"] :
      DelayedState Nat String).value = none ∧
    (DelayedState.trace true
        [DelayedState.Event.run, DelayedState.Event.reject 0 "boom",
          DelayedState.Event.run] :
      DelayedState Nat String).stage = PromiseStage.error :=
  ⟨rfl, rfl⟩

/-- C3 amended: on the deferred policy with `keepLastValue = true`, `run()`
suppresses setting stage to `running` exactly when a prior run has occurred
(the generation-token slot is non-null), regardless of whether a value is
present; in particular a first-ever `run()` sets stage to `running`, and a
`run()` after a prior completed run leaves the stage unchanged. -/
theorem claim_C3 (s : DelayedState T E) :
    (DelayedState.run true s).stage =
      if s.currentSymbol.isNone then PromiseStage.running else s.stage := by
  cases h : s.currentSymbol <;>
    simp [DelayedState.run, DelayedState.mintSymbol, DelayedState.maybeSetRunning,
      DelayedState.clearError, DelayedState.clearValueUnlessKept, h]

/-- C5: on the deferred policy with `keepLastValue = false`, every `run()`
clears `value` in its first synchronous write, before the stage is changed
(the state right after the clearing write has the old stage), and by the
time `returnsPromise()` is invoked (the end of the synchronous body of
`run`) value is cleared, error is cleared and stage is `running`. -/
theorem claim_C5 (s : DelayedState T E) :
    (DelayedState.clearValueUnlessKept false s).value = none ∧
    (DelayedState.clearValueUnlessKept false s).stage = s.stage ∧
    (DelayedState.run false s).value = none ∧
    (DelayedState.run false s).error = none ∧
    (DelayedState.run false s).stage = PromiseStage.running :=
  ⟨rfl, rfl, rfl, rfl, rfl⟩

/-- C8: on the deferred policy, when the promise of an invocation rejects
and that invocation is still current per the generation token, the `.catch`
handler sets stage to `error`, stores the rejection reason, and clears
`value` — the handler does not depend on `keepLastValue`. -/
theorem claim_C8 (s : DelayedState T E) (tok : Nat) (err : E)
    (h : s.currentSymbol = some tok) :
    DelayedState.reject tok err s =
      { s with stage := PromiseStage.error, value := none, error := some err } := by
  simp only [DelayedState.reject, if_pos h]

/-- Witness for C8: a concrete still-current rejection after a
`keepLastValue = true` run commits the error state. -/
theorem claim_C8_witness :
    DelayedState.reject 0 "boom"
        (DelayedState.run true (DelayedState.init : DelayedState Nat String)) =
      { value := none, error := some "boom", stage := PromiseStage.error,
        currentSymbol := some 0, nextSym := 1 } := by
  rw [claim_C8 _ 0 "boom" rfl]
  rfl

end ReactPromiseHook

namespace ReactPromiseHook

variable {T E : Type}

/-- C4 counterexample: on the external-promise policy, adopting a new
promise reference after a settlement does NOT clear `value` or `error`: the
effect body only sets stage to `running`. After a fulfillment with `7`
followed by adopting a new promise, the stale value `7` is still present,
and after a rejection followed by adoption the stale error is still
present, contradicting the claim that adoption clears both. -/
theorem claim_C4_counterexample :
    (ExistingState.trace
        [ExistingState.Event.fulfill 7, ExistingState.Event.adopt] :
      ExistingState Nat String).stage = PromiseStage.running ∧
    (ExistingState.trace
        [ExistingState.Event.fulfill 7, ExistingState.Event.adopt] :
      ExistingState Nat String).value = some 7 ∧
    (ExistingState.trace
        [ExistingState.Event.reject "boom", ExistingState.Event.adopt] :
      ExistingState Nat String).error = some "boom" :=
  ⟨rfl, rfl, rfl⟩

/-- C4 amended: every time the external promise reference changes, the
external-promise policy sets stage to `running` but does not clear `value`
or `error`: both retain their previous contents until the newly adopted
promise settles. -/
theorem claim_C4 (s : ExistingState T E) :
    (ExistingState.adopt s).stage = PromiseStage.running ∧
    (ExistingState.adopt s).value = s.value ∧
    (ExistingState.adopt s).error = s.error :=
  ⟨rfl, rfl, rfl⟩

/-- C6: the immediate policy wrapping a promise resolving to `42` shows the
trace notRun, then running with no value, then success with value 42 and no
error; and every invocation fully resets value and error and sets stage to
`running` before the operation starts. -/
theorem claim_C6 :
    (ImmediateState.init : ImmediateState Nat String) =
        { value := none, error := none, stage := PromiseStage.notRun } ∧
    (ImmediateState.trace [ImmediateState.Event.run] : ImmediateState Nat String) =
        { value := none, error := none, stage := PromiseStage.running } ∧
    (ImmediateState.trace
        [ImmediateState.Event.run, ImmediateState.Event.fulfill 42] :
      ImmediateState Nat String) =
        { value := some 42, error := none, stage := PromiseStage.success } ∧
    ∀ (A B : Type) (s : ImmediateState A B),
      ImmediateState.run s =
        { value := none, error := none, stage := PromiseStage.running } :=
  ⟨rfl, rfl, rfl, fun _ _ _ => rfl⟩

/-- C7: on the immediate policy, a rejection with "boom" is captured by the
`.catch` handler (a total state transformer: nothing is rethrown past the
boundary of the tracker) and stored, giving final state stage `error`,
error "boom", no value; in general the handler sets stage to `error` and
stores the reason. -/
theorem claim_C7 :
    (ImmediateState.trace
        [ImmediateState.Event.run, ImmediateState.Event.reject "boom"] :
      ImmediateState Nat String) =
        { value := none, error := some "boom", stage := PromiseStage.error } ∧
    ∀ (A B : Type) (e : B) (s : ImmediateState A B),
      (ImmediateState.reject e s).stage = PromiseStage.error ∧
      (ImmediateState.reject e s).error = some e :=
  ⟨rfl, fun _ _ _ _ => ⟨rfl, rfl⟩⟩

/-- C9: the immediate policy has no generation guard, so latest-invocation
wins is not enforced: in the interleaving run A, run B, then the promise of
A fulfilling with `7`, the state right after the run of B is the fresh
in-progress reset, and the unguarded `.then` handler of the earlier
invocation A then commits and overwrites it with success/7. -/
theorem claim_C9 :
    (ImmediateState.trace [ImmediateState.Event.run, ImmediateState.Event.run] :
      ImmediateState Nat String) =
        { value := none, error := none, stage := PromiseStage.running } ∧
    (ImmediateState.trace
        [ImmediateState.Event.run, ImmediateState.Event.run,
          ImmediateState.Event.fulfill 7] :
      ImmediateState Nat String) =
        { value := some 7, error := none, stage := PromiseStage.success } :=
  ⟨rfl, rfl⟩

theorem ExistingState.step_stage_cases (s : ExistingState T E)
    (e : ExistingState.Event T E) :
    (ExistingState.step s e).stage = PromiseStage.running ∨
    (ExistingState.step s e).stage = PromiseStage.success ∨
    (ExistingState.step s e).stage = PromiseStage.error := by
  cases e <;>
    simp [ExistingState.step, ExistingState.adopt, ExistingState.fulfill,
      ExistingState.reject]

theorem ExistingState.foldl_stage_cases (l : List (ExistingState.Event T E)) :
    ∀ s : ExistingState T E,
      (s.stage = PromiseStage.running ∨ s.stage = PromiseStage.success ∨
        s.stage = PromiseStage.error) →
      ((List.foldl ExistingState.step s l).stage = PromiseStage.running ∨
        (List.foldl ExistingState.step s l).stage = PromiseStage.success ∨
        (List.foldl ExistingState.step s l).stage = PromiseStage.error) := by
  induction l with
  | nil => exact fun _ h => h
  | cons e rest ih =>
      exact fun s _ => ih (ExistingState.step s e) (ExistingState.step_stage_cases s e)

/-- C10: the external-promise policy never shows stage `notRun`: its initial
stage is already `running`, and after any sequence of adoptions and
settlement events the stage is always one of `running`, `success`,
`error`. -/
theorem claim_C10 :
    (ExistingState.init : ExistingState T E).stage = PromiseStage.running ∧
    ∀ l : List (ExistingState.Event T E),
      (ExistingState.trace l).stage = PromiseStage.running ∨
      (ExistingState.trace l).stage = PromiseStage.success ∨
      (ExistingState.trace l).stage = PromiseStage.error :=
  ⟨rfl, fun l => ExistingState.foldl_stage_cases l ExistingState.init (Or.inl rfl)⟩

end ReactPromiseHook

namespace ReactPromiseHook

variable {T E : Type}

/-- C2 counterexample: the stated invariant fails on the code. First, on the
deferred policy with `keepLastValue = true`, the trace run, reject, run
leaves stage `error` with error absent: the second `run()` clears the error
but suppresses the stage change, so stage `error` holds with no error
stored. Second, on the immediate policy the overlapping trace run A, run B,
reject of A, fulfill of B leaves stage `success` with a stale error still
present, since the unguarded handlers never clear the other field. -/
theorem claim_C2_counterexample :
    (DelayedState.trace true
        [DelayedState.Event.run, DelayedState.Event.reject 0 "boom",
          DelayedState.Event.run] :
      DelayedState Nat String).stage = PromiseStage.error ∧
    (DelayedState.trace true
        [DelayedState.Event.run, DelayedState.Event.reject 0 "boom",
          DelayedState.Event.run] :
      DelayedState Nat String).error = none ∧
    (ImmediateState.trace
        [ImmediateState.Event.run, ImmediateState.Event.run,
          ImmediateState.Event.reject "late", ImmediateState.Event.fulfill 5] :
      ImmediateState Nat String).stage = PromiseStage.success ∧
    (ImmediateState.trace
        [ImmediateState.Event.run, ImmediateState.Event.run,
          ImmediateState.Event.reject "late", ImmediateState.Event.fulfill 5] :
      ImmediateState Nat String).error = some "late" :=
  ⟨rfl, rfl, rfl, rfl⟩

theorem ImmediateState.immediate_step_success_value (s : ImmediateState T E)
    (e : ImmediateState.Event T E) :
    (ImmediateState.step s e).stage = PromiseStage.success →
      (ImmediateState.step s e).value.isSome = true := by
  cases e <;>
    simp [ImmediateState.step, ImmediateState.run, ImmediateState.fulfill,
      ImmediateState.reject]

theorem ImmediateState.immediate_foldl_success_value (l : List (ImmediateState.Event T E)) :
    ∀ s : ImmediateState T E,
      (s.stage = PromiseStage.success → s.value.isSome = true) →
      ((List.foldl ImmediateState.step s l).stage = PromiseStage.success →
        (List.foldl ImmediateState.step s l).value.isSome = true) := by
  induction l with
  | nil => exact fun _ h => h
  | cons e rest ih =>
      exact fun s _ => ih (ImmediateState.step s e) (ImmediateState.immediate_step_success_value s e)

theorem ExistingState.existing_step_success_value (s : ExistingState T E)
    (e : ExistingState.Event T E)
    (_h : s.stage = PromiseStage.success → s.value.isSome = true) :
    (ExistingState.step s e).stage = PromiseStage.success →
      (ExistingState.step s e).value.isSome = true := by
  cases e with
  | adopt =>
      simp [ExistingState.step, ExistingState.adopt]
  | fulfill v =>
      simp [ExistingState.step, ExistingState.fulfill]
  | reject e =>
      simp [ExistingState.step, ExistingState.reject]

theorem ExistingState.existing_foldl_success_value (l : List (ExistingState.Event T E)) :
    ∀ s : ExistingState T E,
      (s.stage = PromiseStage.success → s.value.isSome = true) →
      ((List.foldl ExistingState.step s l).stage = PromiseStage.success →
        (List.foldl ExistingState.step s l).value.isSome = true) := by
  induction l with
  | nil => exact fun _ h => h
  | cons e rest ih =>
      exact fun s h => ih (ExistingState.step s e) (ExistingState.existing_step_success_value s e h)

theorem DelayedState.delayed_step_success_value (keep : Bool) (s : DelayedState T E)
    (e : DelayedState.Event T E)
    (h : s.stage = PromiseStage.success → s.value.isSome = true) :
    (DelayedState.step keep s e).stage = PromiseStage.success →
      (DelayedState.step keep s e).value.isSome = true := by
  cases e with
  | run =>
      cases keep with
      | false =>
          simp [DelayedState.step, DelayedState.run, DelayedState.mintSymbol,
            DelayedState.maybeSetRunning, DelayedState.clearError,
            DelayedState.clearValueUnlessKept]
      | true =>
          cases hcs : s.currentSymbol with
          | none =>
              simp [DelayedState.step, DelayedState.run, DelayedState.mintSymbol,
                DelayedState.maybeSetRunning, DelayedState.clearError,
                DelayedState.clearValueUnlessKept, hcs]
          | some a =>
              simpa [DelayedState.step, DelayedState.run, DelayedState.mintSymbol,
                DelayedState.maybeSetRunning, DelayedState.clearError,
                DelayedState.clearValueUnlessKept, hcs] using h
  | fulfill tok result =>
      simp only [DelayedState.step, DelayedState.fulfill]
      split
      · simp
      · exact h
  | reject tok err =>
      simp only [DelayedState.step, DelayedState.reject]
      split
      · simp
      · exact h

theorem DelayedState.delayed_foldl_success_value (keep : Bool)
    (l : List (DelayedState.Event T E)) :
    ∀ s : DelayedState T E,
      (s.stage = PromiseStage.success → s.value.isSome = true) →
      ((List.foldl (DelayedState.step keep) s l).stage = PromiseStage.success →
        (List.foldl (DelayedState.step keep) s l).value.isSome = true) := by
  induction l with
  | nil => exact fun _ h => h
  | cons e rest ih =>
      exact fun s h =>
        ih (DelayedState.step keep s e) (DelayedState.delayed_step_success_value keep s e h)

/-- C2 amended: on all three policies, exactly one stage holds at any
observation instant (the stage cell is a single enum value, structurally),
and whenever stage is `success` a value is present. The other two
conjuncts of the original claim fail on the code: error may be absent at
stage `error` (deferred policy, `keepLastValue = true`, run after a
rejection), and error may be present at stage `success` (unguarded
policies under overlapping invocations). -/
theorem claim_C2 (A B : Type) :
    (∀ l : List (ImmediateState.Event A B),
      (ImmediateState.trace l).stage = PromiseStage.success →
        (ImmediateState.trace l).value.isSome = true) ∧
    (∀ l : List (ExistingState.Event A B),
      (ExistingState.trace l).stage = PromiseStage.success →
        (ExistingState.trace l).value.isSome = true) ∧
    (∀ (keep : Bool) (l : List (DelayedState.Event A B)),
      (DelayedState.trace keep l).stage = PromiseStage.success →
        (DelayedState.trace keep l).value.isSome = true) :=
  ⟨fun l => ImmediateState.immediate_foldl_success_value l ImmediateState.init
      (fun hc => nomatch hc),
    fun l => ExistingState.existing_foldl_success_value l ExistingState.init
      (fun hc => nomatch hc),
    fun keep l => DelayedState.delayed_foldl_success_value keep l DelayedState.init
      (fun hc => nomatch hc)⟩

/-- Witness for C2: a concrete successful trace on each policy has a value
present at stage `success`. -/
theorem claim_C2_witness :
    (ImmediateState.trace
        [ImmediateState.Event.run, ImmediateState.Event.fulfill 1] :
      ImmediateState Nat String).value.isSome = true ∧
    (ExistingState.trace [ExistingState.Event.fulfill 2] :
      ExistingState Nat String).value.isSome = true ∧
    (DelayedState.trace true
        [DelayedState.Event.run, DelayedState.Event.fulfill 0 3] :
      DelayedState Nat String).value.isSome = true :=
  ⟨(claim_C2 Nat String).1
      [ImmediateState.Event.run, ImmediateState.Event.fulfill 1] rfl,
    (claim_C2 Nat String).2.1 [ExistingState.Event.fulfill 2] rfl,
    (claim_C2 Nat String).2.2 true
      [DelayedState.Event.run, DelayedState.Event.fulfill 0 3] rfl⟩

end ReactPromiseHook
